import Mathlib

/-!
Verification of the body/area state-reconciliation core of a Godot↔Rapier
physics binding, against its natural-language specification.

Shallow embedding conventions:
* `f32` scalars are modelled as `ℚ` (exact arithmetic).  Every property
  checked here is structural (which values are combined, in which order,
  which commands are issued), not a rounding property, so the choice of an
  exact field is sound.
* Engine handles and resource ids are modelled as `Nat`.
* Calls into the engine-owning `RapierSpace` collaborator are modelled as a
  trace of `EngineCmd` values; diagnostics emitted through the host logger
  are modelled as `Diag` values.
* `space.rs`, `conversions.rs` and the `godot-rapier` crate's `area.rs`
  are not part of the provided sources; the definitions standing in for
  them carry a doc comment starting with `Modelled from the spec:`.
All other definitions are translated directly from
`src/godot-rapier/src/body.rs` and `src/rapier-godot/src/area.rs`.
-/

set_option autoImplicit false

/-- A 3-component vector over exact scalars, standing in for both the host
`Vector3` and the engine `Vector<f32>` (the marshalling between the two is
componentwise). -/
@[ext]
structure V3 where
  x : ℚ
  y : ℚ
  z : ℚ
deriving DecidableEq

instance : Zero V3 := ⟨⟨0, 0, 0⟩⟩
instance : Add V3 := ⟨fun a b => ⟨a.x + b.x, a.y + b.y, a.z + b.z⟩⟩
instance : Sub V3 := ⟨fun a b => ⟨a.x - b.x, a.y - b.y, a.z - b.z⟩⟩
instance : Neg V3 := ⟨fun a => ⟨-a.x, -a.y, -a.z⟩⟩
instance : HMul ℚ V3 V3 := ⟨fun q v => ⟨q * v.x, q * v.y, q * v.z⟩⟩

@[simp] theorem V3.add_x (a b : V3) : (a + b).x = a.x + b.x := rfl
@[simp] theorem V3.add_y (a b : V3) : (a + b).y = a.y + b.y := rfl
@[simp] theorem V3.add_z (a b : V3) : (a + b).z = a.z + b.z := rfl
@[simp] theorem V3.sub_x (a b : V3) : (a - b).x = a.x - b.x := rfl
@[simp] theorem V3.sub_y (a b : V3) : (a - b).y = a.y - b.y := rfl
@[simp] theorem V3.sub_z (a b : V3) : (a - b).z = a.z - b.z := rfl
@[simp] theorem V3.zero_x : (0 : V3).x = 0 := rfl
@[simp] theorem V3.zero_y : (0 : V3).y = 0 := rfl
@[simp] theorem V3.zero_z : (0 : V3).z = 0 := rfl
@[simp] theorem V3.smul_x (q : ℚ) (v : V3) : (q * v).x = q * v.x := rfl
@[simp] theorem V3.smul_y (q : ℚ) (v : V3) : (q * v).y = q * v.y := rfl
@[simp] theorem V3.smul_z (q : ℚ) (v : V3) : (q * v).z = q * v.z := rfl

instance : AddCommMonoid V3 where
  add_assoc a b c := by ext <;> simp <;> ring
  zero_add a := by ext <;> simp
  add_zero a := by ext <;> simp
  add_comm a b := by ext <;> simp <;> ring
  nsmul := nsmulRec

/-- `Vector3::ZERO`. -/
def V3.ZERO : V3 := 0

/-- Godot `Vector3::inverse`: the componentwise reciprocal (body.rs uses it
for the detached inverse-inertia fallback). -/
def V3.inverse (v : V3) : V3 := ⟨1 / v.x, 1 / v.y, 1 / v.z⟩

/-- Cross product, used for the induced torque of an off-center force. -/
def V3.cross (a b : V3) : V3 :=
  ⟨a.y * b.z - a.z * b.y, a.z * b.x - a.x * b.z, a.x * b.y - a.y * b.x⟩

/-- Modelled from the spec: the engine pose type `Isometry<f32>` (a rotation
plus a translation).  The rotation component is carried as an opaque
4-tuple of scalars (a quaternion); no claim inspects it beyond equality. -/
structure Iso where
  rotation : ℚ × ℚ × ℚ × ℚ
  translation : V3
deriving DecidableEq

/-- `Isometry::default()`: the identity pose. -/
def Iso.identity : Iso := ⟨(1, 0, 0, 0), 0⟩

/-- Modelled from the spec: the host transform type `Transform3D`.  The spec
treats the transform marshalling helpers (`conversions.rs`, not under the
provided sources) as thin adapters, so a transform is modelled as its
isometry part plus a scale part. -/
structure Transform3D where
  iso : Iso
  scale : V3
deriving DecidableEq

/-- `Transform3D::IDENTITY`. -/
def Transform3D.IDENTITY : Transform3D := ⟨Iso.identity, ⟨1, 1, 1⟩⟩

/-- `Transform3D::origin`. -/
def Transform3D.origin (t : Transform3D) : V3 := t.iso.translation

/-- Modelled from the spec: `conversions::transform_to_isometry` — splits a
host transform into the engine pose and the scale. -/
def transform_to_isometry (t : Transform3D) : Iso × V3 := (t.iso, t.scale)

/-- Modelled from the spec: `conversions::isometry_to_transform` — wraps an
engine pose into a host transform with unit scale. -/
def isometry_to_transform (i : Iso) : Transform3D := ⟨i, ⟨1, 1, 1⟩⟩

/-- Modelled from the spec: `conversions::godot_vector_to_rapier_vector`
(componentwise marshalling, the identity in this embedding). -/
def godot_vector_to_rapier_vector (v : V3) : V3 := v

/-- Modelled from the spec: `conversions::godot_vector_to_rapier_point`. -/
def godot_vector_to_rapier_point (v : V3) : V3 := v

/-- Modelled from the spec: `conversions::rapier_vector_to_godot_vector`. -/
def rapier_vector_to_godot_vector (v : V3) : V3 := v

/-- Modelled from the spec: `conversions::rapier_point_to_godot_vector`. -/
def rapier_point_to_godot_vector (v : V3) : V3 := v

/-- `physics_server_3d::BodyMode`. -/
inductive BodyMode where
  | BODY_MODE_STATIC
  | BODY_MODE_KINEMATIC
  | BODY_MODE_RIGID
  | BODY_MODE_RIGID_LINEAR
deriving DecidableEq

/-- `rigid_body_3d::DampMode`. -/
inductive DampMode where
  | DAMP_MODE_COMBINE
  | DAMP_MODE_REPLACE
deriving DecidableEq

/-- `physics_server_3d::AreaSpaceOverrideMode`. -/
inductive AreaSpaceOverrideMode where
  | AREA_SPACE_OVERRIDE_DISABLED
  | AREA_SPACE_OVERRIDE_COMBINE
  | AREA_SPACE_OVERRIDE_COMBINE_REPLACE
  | AREA_SPACE_OVERRIDE_REPLACE
  | AREA_SPACE_OVERRIDE_REPLACE_COMBINE
deriving DecidableEq

/-- `physics_server_3d::BodyParameter` (the enumerated ids handled by
`RapierBody::get_param`/`set_param`). -/
inductive BodyParameter where
  | BODY_PARAM_BOUNCE
  | BODY_PARAM_FRICTION
  | BODY_PARAM_MASS
  | BODY_PARAM_INERTIA
  | BODY_PARAM_CENTER_OF_MASS
  | BODY_PARAM_GRAVITY_SCALE
  | BODY_PARAM_LINEAR_DAMP_MODE
  | BODY_PARAM_ANGULAR_DAMP_MODE
  | BODY_PARAM_LINEAR_DAMP
  | BODY_PARAM_ANGULAR_DAMP
deriving DecidableEq

/-- `physics_server_3d::BodyState`. -/
inductive BodyState where
  | BODY_STATE_TRANSFORM
  | BODY_STATE_LINEAR_VELOCITY
  | BODY_STATE_ANGULAR_VELOCITY
  | BODY_STATE_SLEEPING
  | BODY_STATE_CAN_SLEEP
deriving DecidableEq

/-- `physics_server_3d::AreaParameter` (the ids handled by
`RapierArea::get_param`/`set_param`). -/
inductive AreaParameter where
  | AREA_PARAM_GRAVITY_OVERRIDE_MODE
  | AREA_PARAM_GRAVITY
  | AREA_PARAM_GRAVITY_VECTOR
  | AREA_PARAM_GRAVITY_IS_POINT
  | AREA_PARAM_GRAVITY_POINT_UNIT_DISTANCE
  | AREA_PARAM_LINEAR_DAMP_OVERRIDE_MODE
  | AREA_PARAM_LINEAR_DAMP
  | AREA_PARAM_ANGULAR_DAMP_OVERRIDE_MODE
  | AREA_PARAM_ANGULAR_DAMP
  | AREA_PARAM_PRIORITY
  | AREA_PARAM_WIND_FORCE_MAGNITUDE
  | AREA_PARAM_WIND_SOURCE
  | AREA_PARAM_WIND_DIRECTION
  | AREA_PARAM_WIND_ATTENUATION_FACTOR
deriving DecidableEq

/-- The host `Variant` type, restricted to the payload kinds that the
embedded getters/setters exchange. -/
inductive Variant where
  | vNil
  | vFloat (q : ℚ)
  | vVec (v : V3)
  | vBool (b : Bool)
  | vTransform (t : Transform3D)
  | vDampMode (m : DampMode)
  | vOverrideMode (m : AreaSpaceOverrideMode)
deriving DecidableEq

/-- `value.to::<f32>()` on a well-typed variant. -/
def Variant.toFloat : Variant → ℚ
  | .vFloat q => q
  | _ => 0

/-- `value.to::<Vector3>()` on a well-typed variant. -/
def Variant.toVec : Variant → V3
  | .vVec v => v
  | _ => 0

/-- `value.to::<bool>()` on a well-typed variant. -/
def Variant.toBool : Variant → Bool
  | .vBool b => b
  | _ => false

/-- `value.to::<Transform3D>()` on a well-typed variant. -/
def Variant.toTransform : Variant → Transform3D
  | .vTransform t => t
  | _ => Transform3D.IDENTITY

/-- `value.to::<DampMode>()` on a well-typed variant. -/
def Variant.toDampMode : Variant → DampMode
  | .vDampMode m => m
  | _ => .DAMP_MODE_COMBINE

/-- `value.to::<AreaSpaceOverrideMode>()` on a well-typed variant. -/
def Variant.toOverrideMode : Variant → AreaSpaceOverrideMode
  | .vOverrideMode m => m
  | _ => .AREA_SPACE_OVERRIDE_DISABLED

/-- `RapierArea` (state model per `src/rapier-godot/src/area.rs`; the engine
plumbing fields — space pointer, collider handle, shape list, callbacks —
carry no reconciliation logic and are omitted). -/
structure RapierArea where
  rid : Nat
  priority : ℚ
  gravity : ℚ
  gravity_vector : V3
  is_point_gravity : Bool
  point_gravity_distance : ℚ
  gravity_mode : AreaSpaceOverrideMode
  linear_damp : ℚ
  linear_damp_mode : AreaSpaceOverrideMode
  angular_damp : ℚ
  angular_damp_mode : AreaSpaceOverrideMode
  monitorable : Bool
deriving DecidableEq

/-- `impl Default for RapierArea` (area.rs lines 48-75): zero scalar fields
and all three override modes `DISABLED`. -/
def RapierArea.default : RapierArea where
  rid := 0
  priority := 0
  gravity := 0
  gravity_vector := 0
  is_point_gravity := false
  point_gravity_distance := 0
  gravity_mode := .AREA_SPACE_OVERRIDE_DISABLED
  linear_damp := 0
  linear_damp_mode := .AREA_SPACE_OVERRIDE_DISABLED
  angular_damp := 0
  angular_damp_mode := .AREA_SPACE_OVERRIDE_DISABLED
  monitorable := false

/-- `RapierArea::new(rid)`: the default state with the given resource id. -/
def RapierArea.new (rid : Nat) : RapierArea := { RapierArea.default with rid := rid }

/-- Modelled from the spec: `RapierArea::compute_gravity` of the
`godot-rapier` crate (its `area.rs` is not among the provided sources).
The spec describes an area's gravity as a magnitude plus direction vector,
with an optional point-gravity mode (source point plus falloff distance,
falloff law unspecified).  No claim depends on this formula: the
reconciliation fold treats each area's computed gravity opaquely. -/
def RapierArea.compute_gravity (a : RapierArea) (position : V3) : V3 :=
  if a.is_point_gravity then a.gravity * (a.gravity_vector - position)
  else a.gravity * a.gravity_vector

/-- Modelled from the spec: the engine's live body snapshot (rapier's
`RigidBody` as consumed through `space.get_body(handle)` — spec §6: "get
live body/mass-properties snapshot"). -/
structure EngineBody where
  linvel : V3
  angvel : V3
  position : Iso
  sleeping : Bool
  inv_mass : ℚ
  inv_principal_inertia_sqrt : V3
  local_com : V3
  center_of_mass : V3

/-- Modelled from the spec: the read surface of the `RapierSpace`
collaborator that the body accessors consume (`space.rs` is not among the
provided sources): a live-body lookup by handle and the always-present
default area (spec §3: "Space default area"). -/
structure RapierSpace where
  get_body : Nat → Option EngineBody
  default_area : Option RapierArea

/-- A command issued to the `RapierSpace` collaborator.  Mutating calls on
the space are modelled as a trace of these commands. -/
inductive EngineCmd where
  | setLinearVelocity (handle : Nat) (v : V3)
  | setAngularVelocity (handle : Nat) (v : V3)
  | applyCentralForce (handle : Nat) (force : V3)
  | applyTorque (handle : Nat) (torque : V3)
  | moveKinematic (handle : Nat) (pose : Iso)
  | setTransform (handle : Nat) (t : Transform3D)
  | setBounce (handle : Nat) (v : ℚ)
  | setFriction (handle : Nat) (v : ℚ)
  | setMass (handle : Nat) (m : ℚ) (customCom : Bool)
  | setInertia (handle : Nat) (v : V3)
  | setCustomCenterOfMass (handle : Nat) (v : V3)
  | setGravityScale (handle : Nat) (v : ℚ)
  | setLinearDamp (handle : Nat) (v : ℚ)
  | setAngularDamp (handle : Nat) (v : ℚ)
  | setIsSleeping (handle : Nat) (v : Bool)
  | setCanSleep (handle : Nat) (v : Bool)
deriving DecidableEq

/-- A diagnostic emitted through the host logger (`godot_error!`).
`objectSpaceNotSet` corresponds to `RapierError::ObjectSpaceNotSet(rid)`
printed together with the `#[track_caller]` call site; `bodyHandleNotSet`
to `RapierError::BodyHandleNotSet(rid)`. -/
inductive Diag where
  | objectSpaceNotSet (rid : Nat) (callsite : String)
  | bodyHandleNotSet (rid : Nat)
deriving DecidableEq

/-- `RapierBody` (body.rs lines 31-70).  The host-object fields with no
reconciliation logic (`shapes`, `instance_id`, `body_state_callback`,
`direct_state`) are omitted. -/
structure RapierBody where
  rid : Nat
  space : Option RapierSpace
  handle : Option Nat
  body_mode : BodyMode
  ccd_enabled : Bool
  constant_force : V3
  constant_torque : V3
  collision_layer : Nat
  collision_mask : Nat
  collision_priority : ℚ
  bounce : ℚ
  friction : ℚ
  mass : ℚ
  inertia : V3
  custom_center_of_mass : V3
  has_custom_center_of_mass : Bool
  gravity_scale : ℚ
  linear_damp_mode : DampMode
  angular_damp_mode : DampMode
  linear_damp : ℚ
  angular_damp : ℚ
  areas : List RapierArea
  linear_velocity : V3
  angular_velocity : V3
  transform : Transform3D
  kinematic_isometry : Iso
  is_sleeping : Bool
  can_sleep : Bool
  sync_state : Bool

/-- `RapierBody::new(rid)` (body.rs lines 501-537). -/
def RapierBody.new (rid : Nat) : RapierBody where
  rid := rid
  space := none
  handle := none
  body_mode := .BODY_MODE_STATIC
  ccd_enabled := false
  constant_force := 0
  constant_torque := 0
  collision_layer := 1
  collision_mask := 1
  collision_priority := 1
  bounce := 0
  friction := 0
  mass := 1
  inertia := 0
  custom_center_of_mass := 0
  has_custom_center_of_mass := false
  gravity_scale := 1
  linear_damp_mode := .DAMP_MODE_COMBINE
  angular_damp_mode := .DAMP_MODE_COMBINE
  linear_damp := 0
  angular_damp := 0
  areas := []
  linear_velocity := 0
  angular_velocity := 0
  transform := Transform3D.IDENTITY
  kinematic_isometry := Iso.identity
  is_sleeping := false
  can_sleep := true
  sync_state := false

/-- `RapierBody::is_kinematic`. -/
def RapierBody.is_kinematic (b : RapierBody) : Bool :=
  decide (b.body_mode = .BODY_MODE_KINEMATIC)

/-- `RapierBody::is_static`. -/
def RapierBody.is_static (b : RapierBody) : Bool :=
  decide (b.body_mode = .BODY_MODE_STATIC)

/-- The diagnostics emitted by one engine access attempt: `space()` logs
`ObjectSpaceNotSet` with the caller's location when the space is absent
(body.rs lines 88-100); otherwise `handle()` logs `BodyHandleNotSet` when
the handle is absent (body.rs lines 349-354). -/
def RapierBody.engineAccessDiags (b : RapierBody) (callsite : String) : List Diag :=
  match b.space with
  | none => [.objectSpaceNotSet b.rid callsite]
  | some _ =>
    match b.handle with
    | none => [.bodyHandleNotSet b.rid]
    | some _ => []

/-- `RapierBody::transform` the accessor (body.rs lines 931-940): the
engine-reported pose when attached and live, else the cached transform. -/
def RapierBody.transform' (b : RapierBody) : Transform3D :=
  match b.space with
  | some s =>
    match b.handle with
    | some h =>
      match s.get_body h with
      | some body => isometry_to_transform body.position
      | none => b.transform
    | none => b.transform
  | none => b.transform

/-- Diagnostics of one `transform()` call. -/
def RapierBody.transformDiags (b : RapierBody) : List Diag :=
  b.engineAccessDiags "transform"

/-- `RapierCollisionObject::isometry` for bodies (body.rs lines 135-137). -/
def RapierBody.isometry (b : RapierBody) : Iso :=
  (transform_to_isometry b.transform').1

/-- `RapierBody::linear_velocity` the accessor (body.rs lines 455-464). -/
def RapierBody.linear_velocity' (b : RapierBody) : V3 :=
  match b.space with
  | some s =>
    match b.handle with
    | some h =>
      match s.get_body h with
      | some body => rapier_vector_to_godot_vector body.linvel
      | none => b.linear_velocity
    | none => b.linear_velocity
  | none => b.linear_velocity

/-- Diagnostics of one `linear_velocity()` call. -/
def RapierBody.linearVelocityDiags (b : RapierBody) : List Diag :=
  b.engineAccessDiags "linear_velocity"

/-- `RapierBody::angular_velocity` the accessor (body.rs lines 201-210). -/
def RapierBody.angular_velocity' (b : RapierBody) : V3 :=
  match b.space with
  | some s =>
    match b.handle with
    | some h =>
      match s.get_body h with
      | some body => rapier_vector_to_godot_vector body.angvel
      | none => b.angular_velocity
    | none => b.angular_velocity
  | none => b.angular_velocity

/-- Diagnostics of one `angular_velocity()` call. -/
def RapierBody.angularVelocityDiags (b : RapierBody) : List Diag :=
  b.engineAccessDiags "angular_velocity"

/-- `RapierBody::center_of_mass` (body.rs lines 285-294): the
engine-reported world center of mass when attached and live, else
`Vector3::ZERO`. -/
def RapierBody.center_of_mass' (b : RapierBody) : V3 :=
  match b.space with
  | some s =>
    match b.handle with
    | some h =>
      match s.get_body h with
      | some body => rapier_point_to_godot_vector body.center_of_mass
      | none => V3.ZERO
    | none => V3.ZERO
  | none => V3.ZERO

/-- Diagnostics of one `center_of_mass()` call. -/
def RapierBody.centerOfMassDiags (b : RapierBody) : List Diag :=
  b.engineAccessDiags "center_of_mass"

/-- `RapierBody::is_sleeping` the accessor (body.rs lines 437-446). -/
def RapierBody.is_sleeping' (b : RapierBody) : Bool :=
  match b.space with
  | some s =>
    match b.handle with
    | some h =>
      match s.get_body h with
      | some body => body.sleeping
      | none => b.is_sleeping
    | none => b.is_sleeping
  | none => b.is_sleeping

/-- Diagnostics of one `is_sleeping()` call. -/
def RapierBody.isSleepingDiags (b : RapierBody) : List Diag :=
  b.engineAccessDiags "is_sleeping"

/-- `RapierBody::inverse_mass` (body.rs lines 419-428): the engine's
`local_mprops.inv_mass` when attached and live, else `1.0 / self.mass`.
Note: unlike `inverse_inertia`, there is no static/kinematic guard. -/
def RapierBody.inverse_mass (b : RapierBody) : ℚ :=
  match b.space with
  | some s =>
    match b.handle with
    | some h =>
      match s.get_body h with
      | some body => body.inv_mass
      | none => 1 / b.mass
    | none => 1 / b.mass
  | none => 1 / b.mass

/-- `RapierBody::inverse_inertia` (body.rs lines 382-398): zero for
static/kinematic bodies, the engine's `inv_principal_inertia_sqrt` when
attached and live, else the componentwise reciprocal of the stored
inertia. -/
def RapierBody.inverse_inertia (b : RapierBody) : V3 :=
  if b.is_kinematic || b.is_static then V3.ZERO
  else
    match b.space with
    | some s =>
      match b.handle with
      | some h =>
        match s.get_body h with
        | some body => body.inv_principal_inertia_sqrt
        | none => b.inertia.inverse
      | none => b.inertia.inverse
    | none => b.inertia.inverse

/-- `default_area?`: the default area reached through `space()` then
`space.borrow().default_area()` in the total-gravity/damp functions. -/
def RapierBody.defaultArea? (b : RapierBody) : Option RapierArea :=
  match b.space with
  | some s => s.default_area
  | none => none

/-- The override-mode loop shared (textually identical up to the accessed
field) by `total_gravity`, `total_linear_damp` and `total_angular_damp`
(body.rs lines 852-875, 890-913, 807-830).  Arguments: the area's mode
field, the area's contribution, the list of overlapping areas, the running
accumulator, and the loop's `done` flag.  Each iteration reassigns the
flag from the area's mode before testing it, so the incoming flag is only
returned when the list is empty — exactly as in the source, where the
pre-loop flag survives only if the loop body never runs. -/
def overrideFold {α : Type} [Add α] (m : RapierArea → AreaSpaceOverrideMode)
    (v : RapierArea → α) : List RapierArea → α → Bool → α × Bool
  | [], acc, done => (acc, done)
  | a :: rest, acc, _ =>
    match m a with
    | .AREA_SPACE_OVERRIDE_COMBINE => overrideFold m v rest (acc + v a) false
    | .AREA_SPACE_OVERRIDE_COMBINE_REPLACE => (acc + v a, true)
    | .AREA_SPACE_OVERRIDE_REPLACE => (v a, true)
    | .AREA_SPACE_OVERRIDE_REPLACE_COMBINE => overrideFold m v rest (v a) false
    | .AREA_SPACE_OVERRIDE_DISABLED => overrideFold m v rest acc false

/-- `RapierBody::total_gravity` (body.rs lines 848-885). -/
def RapierBody.total_gravity' (b : RapierBody) : V3 :=
  let position := b.transform'.origin
  let r := overrideFold (fun a => a.gravity_mode)
    (fun a => a.compute_gravity position) b.areas 0 false
  let gravity :=
    if !r.2 then
      match b.defaultArea? with
      | some default_area => r.1 + default_area.compute_gravity position
      | none => r.1
    else r.1
  b.gravity_scale * gravity

/-- `RapierBody::total_linear_damp` (body.rs lines 887-929).  The loop's
`done` flag is initialised to `linear_damp_mode == DAMP_MODE_REPLACE`
(line 889). -/
def RapierBody.total_linear_damp' (b : RapierBody) : ℚ :=
  let r := overrideFold (fun a => a.linear_damp_mode) (fun a => a.linear_damp)
    b.areas 0 (decide (b.linear_damp_mode = .DAMP_MODE_REPLACE))
  let total :=
    if !r.2 then
      match b.defaultArea? with
      | some default_area => r.1 + default_area.linear_damp
      | none => r.1
    else r.1
  match b.linear_damp_mode with
  | .DAMP_MODE_COMBINE => total + b.linear_damp
  | .DAMP_MODE_REPLACE => b.linear_damp

/-- `RapierBody::total_angular_damp` (body.rs lines 804-846). -/
def RapierBody.total_angular_damp' (b : RapierBody) : ℚ :=
  let r := overrideFold (fun a => a.angular_damp_mode) (fun a => a.angular_damp)
    b.areas 0 (decide (b.angular_damp_mode = .DAMP_MODE_REPLACE))
  let total :=
    if !r.2 then
      match b.defaultArea? with
      | some default_area => r.1 + default_area.angular_damp
      | none => r.1
    else r.1
  match b.angular_damp_mode with
  | .DAMP_MODE_COMBINE => total + b.angular_damp
  | .DAMP_MODE_REPLACE => b.angular_damp

/-- The reconciliation fold exactly as the spec words it: iterate the
areas in insertion order, maintaining a running value and a done flag that
is initially false; COMBINE accumulates and continues, COMBINE_REPLACE
accumulates and stops, REPLACE overwrites and stops, REPLACE_COMBINE
overwrites and continues, DISABLED contributes nothing.  Returns the
resolved value and whether a stopping mode was reached. -/
def specOverrideResolve {α : Type} [Add α] (m : RapierArea → AreaSpaceOverrideMode)
    (v : RapierArea → α) : List RapierArea → α → α × Bool
  | [], acc => (acc, false)
  | a :: rest, acc =>
    match m a with
    | .AREA_SPACE_OVERRIDE_COMBINE => specOverrideResolve m v rest (acc + v a)
    | .AREA_SPACE_OVERRIDE_COMBINE_REPLACE => (acc + v a, true)
    | .AREA_SPACE_OVERRIDE_REPLACE => (v a, true)
    | .AREA_SPACE_OVERRIDE_REPLACE_COMBINE => specOverrideResolve m v rest (v a)
    | .AREA_SPACE_OVERRIDE_DISABLED => specOverrideResolve m v rest acc

/-- Total gravity as described by the spec: the fold over the areas, the
default area's gravity added iff no stopping mode was reached, the result
scaled by the body's gravity scale. -/
def specTotalGravity (b : RapierBody) : V3 :=
  let position := b.transform'.origin
  let r := specOverrideResolve (fun a => a.gravity_mode)
    (fun a => a.compute_gravity position) b.areas 0
  let gravity :=
    if r.2 then r.1
    else
      match b.defaultArea? with
      | some default_area => r.1 + default_area.compute_gravity position
      | none => r.1
  b.gravity_scale * gravity

/-- Total linear damp as described by the spec: the same fold with the
area's linear damp as accumulate-target, the default area's damp added iff
no stopping mode was reached, then the body's own damp factored in by the
body's damp mode (COMBINE adds, REPLACE overwrites). -/
def specTotalLinearDamp (b : RapierBody) : ℚ :=
  let r := specOverrideResolve (fun a => a.linear_damp_mode)
    (fun a => a.linear_damp) b.areas 0
  let total :=
    if r.2 then r.1
    else
      match b.defaultArea? with
      | some default_area => r.1 + default_area.linear_damp
      | none => r.1
  match b.linear_damp_mode with
  | .DAMP_MODE_COMBINE => total + b.linear_damp
  | .DAMP_MODE_REPLACE => b.linear_damp

/-- Total angular damp as described by the spec. -/
def specTotalAngularDamp (b : RapierBody) : ℚ :=
  let r := specOverrideResolve (fun a => a.angular_damp_mode)
    (fun a => a.angular_damp) b.areas 0
  let total :=
    if r.2 then r.1
    else
      match b.defaultArea? with
      | some default_area => r.1 + default_area.angular_damp
      | none => r.1
  match b.angular_damp_mode with
  | .DAMP_MODE_COMBINE => total + b.angular_damp
  | .DAMP_MODE_REPLACE => b.angular_damp

/-- The `if let Some(space) = self.space() { if let Some(handle) =
self.handle() { space.borrow_mut().cmd(handle, ...) } }` pattern shared by
every engine-forwarding setter: one command when attached, nothing
otherwise. -/
def RapierBody.emitIfAttached (b : RapierBody) (mk : Nat → EngineCmd) : List EngineCmd :=
  match b.space, b.handle with
  | some _, some h => [mk h]
  | _, _ => []

/-- `RapierBody::add_constant_central_force` (body.rs lines 179-181). -/
def RapierBody.add_constant_central_force (b : RapierBody) (force : V3) : RapierBody :=
  { b with constant_force := b.constant_force + godot_vector_to_rapier_vector force }

/-- `RapierBody::add_constant_force` (body.rs lines 183-191): accumulates
the force and the induced torque
`(position - (center_of_mass - translation)) × force`. -/
def RapierBody.add_constant_force (b : RapierBody) (force position : V3) : RapierBody :=
  let center_of_mass := b.center_of_mass'
  let translation := b.transform'.origin
  let center_of_mass_relative := godot_vector_to_rapier_point (center_of_mass - translation)
  let force' := godot_vector_to_rapier_vector force
  let position' := godot_vector_to_rapier_point position
  { b with
    constant_force := b.constant_force + force'
    constant_torque := b.constant_torque + (position' - center_of_mass_relative).cross force' }

/-- `RapierBody::add_constant_torque` (body.rs lines 193-195). -/
def RapierBody.add_constant_torque (b : RapierBody) (torque : V3) : RapierBody :=
  { b with constant_torque := b.constant_torque + godot_vector_to_rapier_vector torque }

/-- `RapierBody::set_bounce` (body.rs lines 614-621). -/
def RapierBody.set_bounce (b : RapierBody) (bounce : ℚ) : RapierBody × List EngineCmd :=
  ({ b with bounce := bounce }, b.emitIfAttached (.setBounce · bounce))

/-- `RapierBody::set_friction` (body.rs lines 667-674). -/
def RapierBody.set_friction (b : RapierBody) (friction : ℚ) : RapierBody × List EngineCmd :=
  ({ b with friction := friction }, b.emitIfAttached (.setFriction · friction))

/-- `RapierBody::set_mass` (body.rs lines 733-742). -/
def RapierBody.set_mass (b : RapierBody) (mass : ℚ) : RapierBody × List EngineCmd :=
  ({ b with mass := mass },
    b.emitIfAttached (.setMass · mass b.has_custom_center_of_mass))

/-- `RapierBody::set_inertia` (body.rs lines 689-703): a zero inertia asks
the engine to recompute mass properties from the shapes. -/
def RapierBody.set_inertia (b : RapierBody) (inertia : V3) : RapierBody × List EngineCmd :=
  ({ b with inertia := inertia },
    b.emitIfAttached fun h =>
      if inertia = V3.ZERO then .setMass h b.mass b.has_custom_center_of_mass
      else .setInertia h inertia)

/-- `RapierBody::set_center_of_mass` (body.rs lines 631-641). -/
def RapierBody.set_center_of_mass (b : RapierBody) (center_of_mass : V3) :
    RapierBody × List EngineCmd :=
  ({ b with custom_center_of_mass := center_of_mass, has_custom_center_of_mass := true },
    b.emitIfAttached (.setCustomCenterOfMass · center_of_mass))

/-- `RapierBody::set_gravity_scale` (body.rs lines 676-683). -/
def RapierBody.set_gravity_scale (b : RapierBody) (gravity_scale : ℚ) :
    RapierBody × List EngineCmd :=
  ({ b with gravity_scale := gravity_scale },
    b.emitIfAttached (.setGravityScale · gravity_scale))

/-- `RapierBody::set_linear_damp` (body.rs lines 714-721), translated
exactly as written: the cached field it assigns into is `angular_damp`,
while the engine command carries the linear damp. -/
def RapierBody.set_linear_damp (b : RapierBody) (linear_damp : ℚ) :
    RapierBody × List EngineCmd :=
  ({ b with angular_damp := linear_damp },
    b.emitIfAttached (.setLinearDamp · linear_damp))

/-- `RapierBody::set_angular_damp` (body.rs lines 579-586). -/
def RapierBody.set_angular_damp (b : RapierBody) (angular_damp : ℚ) :
    RapierBody × List EngineCmd :=
  ({ b with angular_damp := angular_damp },
    b.emitIfAttached (.setAngularDamp · angular_damp))

/-- `RapierBody::set_linear_velocity` (body.rs lines 723-731). -/
def RapierBody.set_linear_velocity (b : RapierBody) (value : V3) :
    RapierBody × List EngineCmd :=
  ({ b with linear_velocity := value },
    b.emitIfAttached (.setLinearVelocity · (godot_vector_to_rapier_vector value)))

/-- `RapierBody::set_angular_velocity` (body.rs lines 588-596). -/
def RapierBody.set_angular_velocity (b : RapierBody) (value : V3) :
    RapierBody × List EngineCmd :=
  ({ b with angular_velocity := value },
    b.emitIfAttached (.setAngularVelocity · (godot_vector_to_rapier_vector value)))

/-- `RapierBody::set_is_sleeping` (body.rs lines 705-712). -/
def RapierBody.set_is_sleeping (b : RapierBody) (value : Bool) :
    RapierBody × List EngineCmd :=
  ({ b with is_sleeping := value }, b.emitIfAttached (.setIsSleeping · value))

/-- `RapierBody::set_can_sleep` (body.rs lines 623-630). -/
def RapierBody.set_can_sleep (b : RapierBody) (value : Bool) :
    RapierBody × List EngineCmd :=
  ({ b with can_sleep := value }, b.emitIfAttached (.setCanSleep · value))

/-- `RapierBody::set_transform` (body.rs lines 789-802): always updates the
cached transform; while kinematic, only retargets the tracked kinematic
pose and returns without touching the engine; otherwise pushes the
transform to the engine when attached. -/
def RapierBody.set_transform (b : RapierBody) (value : Transform3D) :
    RapierBody × List EngineCmd :=
  let b' := { b with transform := value }
  if b'.is_kinematic then
    ({ b' with kinematic_isometry := (transform_to_isometry value).1 }, [])
  else
    (b', b'.emitIfAttached (.setTransform · value))

/-- `RapierBody::set_param` (body.rs lines 744-776). -/
def RapierBody.set_param (b : RapierBody) (param : BodyParameter) (value : Variant) :
    RapierBody × List EngineCmd :=
  match param with
  | .BODY_PARAM_BOUNCE => b.set_bounce value.toFloat
  | .BODY_PARAM_FRICTION => b.set_friction value.toFloat
  | .BODY_PARAM_MASS => b.set_mass value.toFloat
  | .BODY_PARAM_INERTIA => b.set_inertia value.toVec
  | .BODY_PARAM_CENTER_OF_MASS => b.set_center_of_mass value.toVec
  | .BODY_PARAM_GRAVITY_SCALE => b.set_gravity_scale value.toFloat
  | .BODY_PARAM_LINEAR_DAMP_MODE => ({ b with linear_damp_mode := value.toDampMode }, [])
  | .BODY_PARAM_ANGULAR_DAMP_MODE => ({ b with angular_damp_mode := value.toDampMode }, [])
  | .BODY_PARAM_LINEAR_DAMP => b.set_linear_damp value.toFloat
  | .BODY_PARAM_ANGULAR_DAMP => b.set_angular_damp value.toFloat

/-- `RapierBody::get_param` (body.rs lines 319-333). -/
def RapierBody.get_param (b : RapierBody) (param : BodyParameter) : Variant :=
  match param with
  | .BODY_PARAM_BOUNCE => .vFloat b.bounce
  | .BODY_PARAM_FRICTION => .vFloat b.friction
  | .BODY_PARAM_MASS => .vFloat b.mass
  | .BODY_PARAM_INERTIA => .vVec b.inertia
  | .BODY_PARAM_CENTER_OF_MASS => .vVec b.center_of_mass'
  | .BODY_PARAM_GRAVITY_SCALE => .vFloat b.gravity_scale
  | .BODY_PARAM_LINEAR_DAMP_MODE => .vDampMode b.linear_damp_mode
  | .BODY_PARAM_ANGULAR_DAMP_MODE => .vDampMode b.angular_damp_mode
  | .BODY_PARAM_LINEAR_DAMP => .vFloat b.linear_damp
  | .BODY_PARAM_ANGULAR_DAMP => .vFloat b.angular_damp

/-- `RapierBody::set_state` (body.rs lines 778-787). -/
def RapierBody.set_state (b : RapierBody) (state : BodyState) (value : Variant) :
    RapierBody × List EngineCmd :=
  match state with
  | .BODY_STATE_TRANSFORM => b.set_transform value.toTransform
  | .BODY_STATE_LINEAR_VELOCITY => b.set_linear_velocity value.toVec
  | .BODY_STATE_ANGULAR_VELOCITY => b.set_angular_velocity value.toVec
  | .BODY_STATE_SLEEPING => b.set_is_sleeping value.toBool
  | .BODY_STATE_CAN_SLEEP => b.set_can_sleep value.toBool

/-- `RapierBody::get_state` (body.rs lines 335-344). -/
def RapierBody.get_state (b : RapierBody) (state : BodyState) : Variant :=
  match state with
  | .BODY_STATE_TRANSFORM => .vTransform b.transform'
  | .BODY_STATE_LINEAR_VELOCITY => .vVec b.linear_velocity'
  | .BODY_STATE_ANGULAR_VELOCITY => .vVec b.angular_velocity'
  | .BODY_STATE_SLEEPING => .vBool b.is_sleeping'
  | .BODY_STATE_CAN_SLEEP => .vBool b.can_sleep

/-- `RapierBody::integrate_forces` (body.rs lines 363-380): when attached,
set the engine linear velocity to the currently reported one plus
`step * total_gravity()`, then apply the accumulated constant force as a
central force and the accumulated constant torque as a torque. -/
def RapierBody.integrate_forces (b : RapierBody) (step : ℚ) : List EngineCmd :=
  match b.space, b.handle with
  | some _, some h =>
    let linear_velocity := godot_vector_to_rapier_vector b.linear_velocity'
    [.setLinearVelocity h
        (linear_velocity + godot_vector_to_rapier_vector (step * b.total_gravity')),
      .applyCentralForce h b.constant_force,
      .applyTorque h b.constant_torque]
  | _, _ => []

/-- `RapierBody::move_kinematic` (body.rs lines 480-499): when attached,
zero both engine velocities, then issue a move-kinematic command unless
the live pose already equals the tracked kinematic target. -/
def RapierBody.move_kinematic (b : RapierBody) : List EngineCmd :=
  match b.space, b.handle with
  | some _, some h =>
    [EngineCmd.setLinearVelocity h 0, EngineCmd.setAngularVelocity h 0] ++
      (if b.isometry = b.kinematic_isometry then []
       else [EngineCmd.moveKinematic h b.kinematic_isometry])
  | _, _ => []

/-- `RapierBody::pre_step` (body.rs lines 539-549): dispatch on body mode;
STATIC falls into the `_ => {}` arm. -/
def RapierBody.pre_step (b : RapierBody) (step : ℚ) : List EngineCmd :=
  match b.body_mode with
  | .BODY_MODE_RIGID => b.integrate_forces step
  | .BODY_MODE_RIGID_LINEAR => b.integrate_forces step
  | .BODY_MODE_KINEMATIC => b.move_kinematic
  | .BODY_MODE_STATIC => []

/-- `DEFAULT_WIND_FORCE_MAGNITUDE` (area.rs line 18). -/
def DEFAULT_WIND_FORCE_MAGNITUDE : ℚ := 0

/-- `DEFAULT_WIND_ATTENUATION_FACTOR` (area.rs line 19). -/
def DEFAULT_WIND_ATTENUATION_FACTOR : ℚ := 0

/-- `DEFAULT_WIND_SOURCE` (area.rs line 21). -/
def DEFAULT_WIND_SOURCE : V3 := V3.ZERO

/-- `DEFAULT_WIND_DIRECTION` (area.rs line 22). -/
def DEFAULT_WIND_DIRECTION : V3 := V3.ZERO

/-- `RapierArea::get_param` (area.rs lines 197-225): stored fields for the
supported parameters, the fixed defaults for the wind parameters. -/
def RapierArea.get_param (a : RapierArea) (param : AreaParameter) : Variant :=
  match param with
  | .AREA_PARAM_GRAVITY_OVERRIDE_MODE => .vOverrideMode a.gravity_mode
  | .AREA_PARAM_GRAVITY => .vFloat a.gravity
  | .AREA_PARAM_GRAVITY_VECTOR => .vVec a.gravity_vector
  | .AREA_PARAM_GRAVITY_IS_POINT => .vBool a.is_point_gravity
  | .AREA_PARAM_GRAVITY_POINT_UNIT_DISTANCE => .vFloat a.point_gravity_distance
  | .AREA_PARAM_LINEAR_DAMP_OVERRIDE_MODE => .vOverrideMode a.linear_damp_mode
  | .AREA_PARAM_LINEAR_DAMP => .vFloat a.linear_damp
  | .AREA_PARAM_ANGULAR_DAMP_OVERRIDE_MODE => .vOverrideMode a.angular_damp_mode
  | .AREA_PARAM_ANGULAR_DAMP => .vFloat a.angular_damp
  | .AREA_PARAM_PRIORITY => .vFloat a.priority
  | .AREA_PARAM_WIND_FORCE_MAGNITUDE => .vFloat DEFAULT_WIND_FORCE_MAGNITUDE
  | .AREA_PARAM_WIND_SOURCE => .vVec DEFAULT_WIND_SOURCE
  | .AREA_PARAM_WIND_DIRECTION => .vVec DEFAULT_WIND_DIRECTION
  | .AREA_PARAM_WIND_ATTENUATION_FACTOR => .vFloat DEFAULT_WIND_ATTENUATION_FACTOR

/-- `RapierArea::set_param` (area.rs lines 227-273), together with the
`godot_warn!` messages it emits: the supported parameters update the
corresponding field, the wind parameters warn and change nothing. -/
def RapierArea.set_param (a : RapierArea) (param : AreaParameter) (value : Variant) :
    RapierArea × List String :=
  match param with
  | .AREA_PARAM_GRAVITY_OVERRIDE_MODE => ({ a with gravity_mode := value.toOverrideMode }, [])
  | .AREA_PARAM_GRAVITY => ({ a with gravity := value.toFloat }, [])
  | .AREA_PARAM_GRAVITY_VECTOR => ({ a with gravity_vector := value.toVec }, [])
  | .AREA_PARAM_GRAVITY_IS_POINT => ({ a with is_point_gravity := value.toBool }, [])
  | .AREA_PARAM_GRAVITY_POINT_UNIT_DISTANCE =>
    ({ a with point_gravity_distance := value.toFloat }, [])
  | .AREA_PARAM_LINEAR_DAMP_OVERRIDE_MODE =>
    ({ a with linear_damp_mode := value.toOverrideMode }, [])
  | .AREA_PARAM_LINEAR_DAMP => ({ a with linear_damp := value.toFloat }, [])
  | .AREA_PARAM_ANGULAR_DAMP_OVERRIDE_MODE =>
    ({ a with angular_damp_mode := value.toOverrideMode }, [])
  | .AREA_PARAM_ANGULAR_DAMP => ({ a with angular_damp := value.toFloat }, [])
  | .AREA_PARAM_PRIORITY => ({ a with priority := value.toFloat }, [])
  | .AREA_PARAM_WIND_FORCE_MAGNITUDE =>
    (a, ["Area wind force magnitude is not supported by Godot Rapier. Any such value will be ignored."])
  | .AREA_PARAM_WIND_SOURCE =>
    (a, ["Area wind source is not supported by Godot Rapier. Any such value will be ignored."])
  | .AREA_PARAM_WIND_DIRECTION =>
    (a, ["Area wind direction is not supported by Godot Rapier. Any such value will be ignored."])
  | .AREA_PARAM_WIND_ATTENUATION_FACTOR =>
    (a, ["Area wind attenuation factor is not supported by Godot Rapier. Any such value will be ignored."])

theorem overrideFold_cons_flag {α : Type} [Add α] (m : RapierArea → AreaSpaceOverrideMode)
    (v : RapierArea → α) (a : RapierArea) (rest : List RapierArea) (acc : α) (d₁ d₂ : Bool) :
    overrideFold m v (a :: rest) acc d₁ = overrideFold m v (a :: rest) acc d₂ := rfl

theorem overrideFold_false_spec {α : Type} [Add α] (m : RapierArea → AreaSpaceOverrideMode)
    (v : RapierArea → α) :
    ∀ (l : List RapierArea) (acc : α),
      overrideFold m v l acc false = specOverrideResolve m v l acc := by
  intro l
  induction l with
  | nil => intro acc; rfl
  | cons a rest ih =>
    intro acc
    cases h : m a <;> simp [overrideFold, specOverrideResolve, h, ih]

theorem overrideFold_insert_disabled {α : Type} [Add α]
    (m : RapierArea → AreaSpaceOverrideMode) (v : RapierArea → α) (d : RapierArea)
    (hd : m d = .AREA_SPACE_OVERRIDE_DISABLED) (ys : List RapierArea) :
    ∀ (xs : List RapierArea) (acc : α) (flag : Bool),
      xs ++ ys ≠ [] ∨ flag = false →
      overrideFold m v (xs ++ d :: ys) acc flag = overrideFold m v (xs ++ ys) acc flag := by
  intro xs
  induction xs with
  | nil =>
    intro acc flag hf
    simp only [List.nil_append]
    have h1 : overrideFold m v (d :: ys) acc flag = overrideFold m v ys acc false := by
      simp [overrideFold, hd]
    rw [h1]
    cases ys with
    | nil =>
      rcases hf with h | h
      · simp at h
      · rw [h]
    | cons a ys' => exact overrideFold_cons_flag m v a ys' acc false flag
  | cons a xs' ih =>
    intro acc flag _
    simp only [List.cons_append]
    cases h : m a <;>
      simp only [overrideFold, h] <;>
      first
        | rfl
        | exact ih _ _ (Or.inr rfl)

theorem overrideFold_replace_masks {α : Type} [Add α]
    (m : RapierArea → AreaSpaceOverrideMode) (v : RapierArea → α) (a : RapierArea)
    (ha : m a = .AREA_SPACE_OVERRIDE_REPLACE) (ys ys' : List RapierArea) :
    ∀ (xs : List RapierArea) (acc : α) (flag : Bool),
      overrideFold m v (xs ++ a :: ys) acc flag = overrideFold m v (xs ++ a :: ys') acc flag
        ∧ (overrideFold m v (xs ++ a :: ys) acc flag).2 = true := by
  intro xs
  induction xs with
  | nil =>
    intro acc flag
    constructor
    · simp [overrideFold, ha]
    · simp [overrideFold, ha]
  | cons b xs' ih =>
    intro acc flag
    cases h : m b <;>
      simp only [List.cons_append, overrideFold, h] <;>
      first
        | exact ⟨trivial, trivial⟩
        | exact ih _ _

theorem overrideFold_all_combine {α : Type} [AddCommMonoid α]
    (m : RapierArea → AreaSpaceOverrideMode) (v : RapierArea → α) :
    ∀ (l : List RapierArea) (acc : α),
      (∀ x ∈ l, m x = .AREA_SPACE_OVERRIDE_COMBINE) →
      overrideFold m v l acc false = (acc + (l.map v).sum, false) := by
  intro l
  induction l with
  | nil => intro acc _; simp [overrideFold]
  | cons a rest ih =>
    intro acc h
    have ha := h a (List.mem_cons_self a rest)
    rw [show overrideFold m v (a :: rest) acc false
        = overrideFold m v rest (acc + v a) false by simp [overrideFold, ha]]
    rw [ih _ (fun x hx => h x (List.mem_cons_of_mem a hx))]
    simp [add_assoc]

theorem V3.sub_self (v : V3) : v - v = 0 := by
  ext <;> simp

theorem V3.cross_zero_left (f : V3) : V3.cross 0 f = 0 := by
  ext <;> simp [V3.cross]

/-- Claim C1 (code-bug evidence): on a fresh detached body, storing 5 into
`BODY_PARAM_LINEAR_DAMP` leaves the linear damp at its prior value 0 (so
the set/get round trip reads back 0, not 5) and clobbers the angular damp
field with 5 — `set_linear_damp` assigns into `angular_damp` while the
engine command it issues carries the linear damp, the copy-paste slip the
spec's design notes flag. -/
theorem set_param_linear_damp_roundtrip_fails :
    (((RapierBody.new 3).set_param .BODY_PARAM_LINEAR_DAMP (.vFloat 5)).1.get_param
        .BODY_PARAM_LINEAR_DAMP = .vFloat 0)
    ∧ ((RapierBody.new 3).set_param .BODY_PARAM_LINEAR_DAMP (.vFloat 5)).1.angular_damp = 5
    ∧ (RapierBody.new 3).angular_damp = 0
    ∧ (RapierBody.new 3).linear_damp = 0
    ∧ Variant.vFloat 0 ≠ Variant.vFloat 5 := by
  refine ⟨rfl, rfl, rfl, rfl, ?_⟩
  decide

/-- Claim C2, counterexample: a freshly constructed body is STATIC and
detached, yet `inverse_mass()` returns `1/mass = 1`, not zero — the claim
fails because `inverse_mass` carries no static/kinematic guard. -/
theorem inverse_mass_static_detached_not_zero :
    (RapierBody.new 7).is_static = true
    ∧ (RapierBody.new 7).inverse_mass = 1
    ∧ (1 : ℚ) ≠ 0 := by
  refine ⟨rfl, ?_, by norm_num⟩
  simp [RapierBody.inverse_mass, RapierBody.new]

/-- Claim C2 (amended): `inverse_inertia()` returns exactly zero for every
STATIC or KINEMATIC body, regardless of stored inertia and attachment;
`inverse_mass()` has no mode guard — it returns the engine-reported
inverse mass when attached to a live body and `1/mass` when detached, in
every body mode. -/
theorem mass_query_mode_guards :
    ∀ b : RapierBody,
      ((b.body_mode = .BODY_MODE_STATIC ∨ b.body_mode = .BODY_MODE_KINEMATIC) →
        b.inverse_inertia = V3.ZERO)
      ∧ (b.space = none → b.inverse_mass = 1 / b.mass)
      ∧ (∀ (s : RapierSpace) (h : Nat) (eb : EngineBody),
          b.space = some s → b.handle = some h → s.get_body h = some eb →
          b.inverse_mass = eb.inv_mass) := by
  intro b
  refine ⟨?_, ?_, ?_⟩
  · intro hm
    rcases hm with hm | hm <;>
      simp [RapierBody.inverse_inertia, RapierBody.is_static, RapierBody.is_kinematic, hm]
  · intro hs
    simp [RapierBody.inverse_mass, hs]
  · intro s h eb hs hh hb
    simp [RapierBody.inverse_mass, hs, hh, hb]

/-- Witness for the amended C2 theorem at concrete bodies. -/
theorem mass_query_mode_guards_witness :
    (RapierBody.new 11).inverse_inertia = V3.ZERO
    ∧ (RapierBody.new 11).inverse_mass = 1 / (RapierBody.new 11).mass
    ∧ RapierBody.inverse_mass
        { RapierBody.new 12 with
          space := some ⟨fun _ => some ⟨0, 0, Iso.identity, false, 9, 0, 0, 0⟩, none⟩,
          handle := some 0 } = 9 := by
  refine ⟨(mass_query_mode_guards _).1 (Or.inl rfl), (mass_query_mode_guards _).2.1 rfl, ?_⟩
  exact (mass_query_mode_guards _).2.2 _ 0 ⟨0, 0, Iso.identity, false, 9, 0, 0, 0⟩ rfl rfl rfl

/-- Claim C7: `add_constant_force` accumulates the force into the constant
force and the induced torque `(P - (center_of_mass - origin)) × F` into
the constant torque, where the application-frame center of mass is
derived from the engine-reported world center of mass and the current
transform origin; applying the force exactly at that derived center of
mass leaves the constant torque unchanged. -/
theorem add_constant_force_accumulates :
    ∀ (b : RapierBody) (force position : V3),
      ((b.add_constant_force force position).constant_force = b.constant_force + force
      ∧ (b.add_constant_force force position).constant_torque
          = b.constant_torque
            + (position - (b.center_of_mass' - b.transform'.origin)).cross force)
      ∧ ∀ f : V3,
          (b.add_constant_force f (b.center_of_mass' - b.transform'.origin)).constant_torque
            = b.constant_torque := by
  intro b force position
  refine ⟨⟨rfl, rfl⟩, ?_⟩
  intro f
  show b.constant_torque
      + ((b.center_of_mass' - b.transform'.origin)
          - (b.center_of_mass' - b.transform'.origin)).cross f
    = b.constant_torque
  rw [V3.sub_self, V3.cross_zero_left, add_zero]

/-- Claim C9: for each of the four wind parameters, `RapierArea::set_param`
leaves the area state unchanged and emits exactly the corresponding
diagnostic warning, and `RapierArea::get_param` — before or after any such
set — returns the fixed default value, never a previously passed value. -/
theorem area_wind_params_ignored :
    ∀ (a : RapierArea) (v : Variant),
      a.set_param .AREA_PARAM_WIND_FORCE_MAGNITUDE v
        = (a, ["Area wind force magnitude is not supported by Godot Rapier. Any such value will be ignored."])
      ∧ a.set_param .AREA_PARAM_WIND_SOURCE v
        = (a, ["Area wind source is not supported by Godot Rapier. Any such value will be ignored."])
      ∧ a.set_param .AREA_PARAM_WIND_DIRECTION v
        = (a, ["Area wind direction is not supported by Godot Rapier. Any such value will be ignored."])
      ∧ a.set_param .AREA_PARAM_WIND_ATTENUATION_FACTOR v
        = (a, ["Area wind attenuation factor is not supported by Godot Rapier. Any such value will be ignored."])
      ∧ (a.set_param .AREA_PARAM_WIND_FORCE_MAGNITUDE v).1.get_param
          .AREA_PARAM_WIND_FORCE_MAGNITUDE = .vFloat DEFAULT_WIND_FORCE_MAGNITUDE
      ∧ (a.set_param .AREA_PARAM_WIND_SOURCE v).1.get_param
          .AREA_PARAM_WIND_SOURCE = .vVec DEFAULT_WIND_SOURCE
      ∧ (a.set_param .AREA_PARAM_WIND_DIRECTION v).1.get_param
          .AREA_PARAM_WIND_DIRECTION = .vVec DEFAULT_WIND_DIRECTION
      ∧ (a.set_param .AREA_PARAM_WIND_ATTENUATION_FACTOR v).1.get_param
          .AREA_PARAM_WIND_ATTENUATION_FACTOR = .vFloat DEFAULT_WIND_ATTENUATION_FACTOR := by
  intro a v
  exact ⟨rfl, rfl, rfl, rfl, rfl, rfl, rfl, rfl⟩

/-- Claim C8: on a detached body (no space reference), every embedded
engine-state accessor returns its documented default — the cached
transform, velocities and sleep state, the zero vector for the center of
mass — and each call emits exactly one diagnostic carrying the object's
resource id and the call site. -/
theorem detached_body_accessor_defaults :
    ∀ b : RapierBody, b.space = none →
      (b.transform' = b.transform
        ∧ b.transformDiags = [.objectSpaceNotSet b.rid "transform"])
      ∧ (b.center_of_mass' = V3.ZERO
        ∧ b.centerOfMassDiags = [.objectSpaceNotSet b.rid "center_of_mass"])
      ∧ (b.linear_velocity' = b.linear_velocity
        ∧ b.linearVelocityDiags = [.objectSpaceNotSet b.rid "linear_velocity"])
      ∧ (b.angular_velocity' = b.angular_velocity
        ∧ b.angularVelocityDiags = [.objectSpaceNotSet b.rid "angular_velocity"])
      ∧ (b.is_sleeping' = b.is_sleeping
        ∧ b.isSleepingDiags = [.objectSpaceNotSet b.rid "is_sleeping"]) := by
  intro b hs
  refine ⟨⟨?_, ?_⟩, ⟨?_, ?_⟩, ⟨?_, ?_⟩, ⟨?_, ?_⟩, ⟨?_, ?_⟩⟩ <;>
    simp [RapierBody.transform', RapierBody.transformDiags,
      RapierBody.center_of_mass', RapierBody.centerOfMassDiags,
      RapierBody.linear_velocity', RapierBody.linearVelocityDiags,
      RapierBody.angular_velocity', RapierBody.angularVelocityDiags,
      RapierBody.is_sleeping', RapierBody.isSleepingDiags,
      RapierBody.engineAccessDiags, hs]

/-- Witness for the C8 theorem at a concrete detached body. -/
theorem detached_body_accessor_defaults_witness :
    ((RapierBody.new 21).transform' = (RapierBody.new 21).transform
      ∧ (RapierBody.new 21).transformDiags = [.objectSpaceNotSet 21 "transform"])
    ∧ ((RapierBody.new 21).center_of_mass' = V3.ZERO
      ∧ (RapierBody.new 21).centerOfMassDiags = [.objectSpaceNotSet 21 "center_of_mass"])
    ∧ ((RapierBody.new 21).linear_velocity' = (RapierBody.new 21).linear_velocity
      ∧ (RapierBody.new 21).linearVelocityDiags = [.objectSpaceNotSet 21 "linear_velocity"])
    ∧ ((RapierBody.new 21).angular_velocity' = (RapierBody.new 21).angular_velocity
      ∧ (RapierBody.new 21).angularVelocityDiags = [.objectSpaceNotSet 21 "angular_velocity"])
    ∧ ((RapierBody.new 21).is_sleeping' = (RapierBody.new 21).is_sleeping
      ∧ (RapierBody.new 21).isSleepingDiags = [.objectSpaceNotSet 21 "is_sleeping"]) :=
  detached_body_accessor_defaults (RapierBody.new 21) rfl

/-- Claim C5: for an attached body, in RIGID or RIGID_LINEAR mode
`pre_step(dt)` issues exactly: set the engine linear velocity to the
currently reported linear velocity plus `dt * total_gravity()`, apply the
accumulated constant force as a central force, and apply the accumulated
constant torque as a torque (the constant accumulators are left in place,
so the same commands recur on every call); the reported linear velocity
is the engine's when the body is live; in STATIC mode `pre_step` issues
no engine command. -/
theorem pre_step_rigid_and_static :
    ∀ (b : RapierBody) (s : RapierSpace) (h : Nat) (step : ℚ),
      b.space = some s → b.handle = some h →
      ((b.body_mode = .BODY_MODE_RIGID ∨ b.body_mode = .BODY_MODE_RIGID_LINEAR) →
        b.pre_step step
          = [.setLinearVelocity h (b.linear_velocity' + step * b.total_gravity'),
             .applyCentralForce h b.constant_force,
             .applyTorque h b.constant_torque])
      ∧ (∀ eb : EngineBody, s.get_body h = some eb → b.linear_velocity' = eb.linvel)
      ∧ (b.body_mode = .BODY_MODE_STATIC → b.pre_step step = []) := by
  intro b s h step hs hh
  refine ⟨?_, ?_, ?_⟩
  · rintro (hm | hm) <;>
      simp [RapierBody.pre_step, hm, RapierBody.integrate_forces, hs, hh,
        godot_vector_to_rapier_vector]
  · intro eb hb
    simp [RapierBody.linear_velocity', hs, hh, hb, rapier_vector_to_godot_vector]
  · intro hm
    simp [RapierBody.pre_step, hm]

/-- Witness for the C5 theorem: a concrete attached rigid body and a
concrete attached static body. -/
theorem pre_step_rigid_and_static_witness :
    RapierBody.pre_step
        { RapierBody.new 31 with
          space := some ⟨fun _ => some ⟨⟨1, 2, 3⟩, 0, Iso.identity, false, 1, 0, 0, 0⟩, none⟩,
          handle := some 0,
          body_mode := .BODY_MODE_RIGID } 2
      = [.setLinearVelocity 0 ⟨1, 2, 3⟩, .applyCentralForce 0 0, .applyTorque 0 0]
    ∧ RapierBody.linear_velocity'
        { RapierBody.new 31 with
          space := some ⟨fun _ => some ⟨⟨1, 2, 3⟩, 0, Iso.identity, false, 1, 0, 0, 0⟩, none⟩,
          handle := some 0,
          body_mode := .BODY_MODE_RIGID } = ⟨1, 2, 3⟩
    ∧ RapierBody.pre_step
        { RapierBody.new 32 with
          space := some ⟨fun _ => some ⟨⟨1, 2, 3⟩, 0, Iso.identity, false, 1, 0, 0, 0⟩, none⟩,
          handle := some 0 } 2 = [] := by
  have h1 := pre_step_rigid_and_static
    { RapierBody.new 31 with
      space := some ⟨fun _ => some ⟨⟨1, 2, 3⟩, 0, Iso.identity, false, 1, 0, 0, 0⟩, none⟩,
      handle := some 0,
      body_mode := .BODY_MODE_RIGID }
    ⟨fun _ => some ⟨⟨1, 2, 3⟩, 0, Iso.identity, false, 1, 0, 0, 0⟩, none⟩ 0 2 rfl rfl
  have h2 := pre_step_rigid_and_static
    { RapierBody.new 32 with
      space := some ⟨fun _ => some ⟨⟨1, 2, 3⟩, 0, Iso.identity, false, 1, 0, 0, 0⟩, none⟩,
      handle := some 0 }
    ⟨fun _ => some ⟨⟨1, 2, 3⟩, 0, Iso.identity, false, 1, 0, 0, 0⟩, none⟩ 0 2 rfl rfl
  refine ⟨?_, ?_, h2.2.2 rfl⟩
  · rw [h1.1 (Or.inl rfl)]
    rw [h1.2.1 ⟨⟨1, 2, 3⟩, 0, Iso.identity, false, 1, 0, 0, 0⟩ rfl]
    norm_num [RapierBody.total_gravity', RapierBody.transform', RapierBody.defaultArea?,
      overrideFold, RapierBody.new]
    ext <;> simp
  · exact h1.2.1 ⟨⟨1, 2, 3⟩, 0, Iso.identity, false, 1, 0, 0, 0⟩ rfl

/-- Claim C6: for an attached, live body in KINEMATIC mode, `pre_step`
zeroes both engine velocities and issues a move-kinematic command exactly
when the live engine pose differs from the tracked kinematic target, so a
`pre_step` with the live pose already on target issues no move command;
and while kinematic, `set_transform` only updates the cached transform
and the tracked kinematic target, issuing no engine command. -/
theorem pre_step_kinematic_no_op :
    (∀ (b : RapierBody) (s : RapierSpace) (h : Nat) (eb : EngineBody) (step : ℚ),
      b.space = some s → b.handle = some h → s.get_body h = some eb →
      b.body_mode = .BODY_MODE_KINEMATIC →
      (b.pre_step step
          = [.setLinearVelocity h 0, .setAngularVelocity h 0] ++
            (if eb.position = b.kinematic_isometry then []
             else [.moveKinematic h b.kinematic_isometry])
        ∧ (eb.position = b.kinematic_isometry →
            b.pre_step step = [.setLinearVelocity h 0, .setAngularVelocity h 0])))
    ∧ (∀ (b : RapierBody) (v : Transform3D), b.is_kinematic = true →
        b.set_transform v
          = ({ b with
                transform := v
                kinematic_isometry := (transform_to_isometry v).1 }, [])) := by
  constructor
  · intro b s h eb step hs hh hb hm
    have hiso : b.isometry = eb.position := by
      simp [RapierBody.isometry, RapierBody.transform', hs, hh, hb,
        isometry_to_transform, transform_to_isometry]
    constructor
    · simp [RapierBody.pre_step, hm, RapierBody.move_kinematic, hs, hh, hiso]
    · intro heq
      simp [RapierBody.pre_step, hm, RapierBody.move_kinematic, hs, hh, hiso, heq]
  · intro b v hk
    have hmode : b.body_mode = .BODY_MODE_KINEMATIC := by
      simpa [RapierBody.is_kinematic] using hk
    simp [RapierBody.set_transform, RapierBody.is_kinematic, hmode]

/-- Witness for the C6 theorem: a concrete attached kinematic body whose
live pose equals its target (no move command), one whose live pose
differs (move command issued), and a concrete kinematic `set_transform`. -/
theorem pre_step_kinematic_no_op_witness :
    RapierBody.pre_step
        { RapierBody.new 41 with
          space := some ⟨fun _ => some ⟨0, 0, Iso.identity, false, 1, 0, 0, 0⟩, none⟩,
          handle := some 0,
          body_mode := .BODY_MODE_KINEMATIC } 1
      = [.setLinearVelocity 0 0, .setAngularVelocity 0 0]
    ∧ RapierBody.pre_step
        { RapierBody.new 42 with
          space := some ⟨fun _ => some ⟨0, 0, Iso.identity, false, 1, 0, 0, 0⟩, none⟩,
          handle := some 0,
          body_mode := .BODY_MODE_KINEMATIC,
          kinematic_isometry := ⟨(1, 0, 0, 0), ⟨5, 0, 0⟩⟩ } 1
      = [.setLinearVelocity 0 0, .setAngularVelocity 0 0,
          .moveKinematic 0 ⟨(1, 0, 0, 0), ⟨5, 0, 0⟩⟩]
    ∧ RapierBody.set_transform
        { RapierBody.new 43 with body_mode := .BODY_MODE_KINEMATIC }
        ⟨⟨(1, 0, 0, 0), ⟨2, 0, 0⟩⟩, ⟨1, 1, 1⟩⟩
      = ({ RapierBody.new 43 with
            body_mode := .BODY_MODE_KINEMATIC,
            transform := ⟨⟨(1, 0, 0, 0), ⟨2, 0, 0⟩⟩, ⟨1, 1, 1⟩⟩,
            kinematic_isometry := ⟨(1, 0, 0, 0), ⟨2, 0, 0⟩⟩ }, []) := by
  refine ⟨?_, ?_, ?_⟩
  · have h := (pre_step_kinematic_no_op.1
      { RapierBody.new 41 with
        space := some ⟨fun _ => some ⟨0, 0, Iso.identity, false, 1, 0, 0, 0⟩, none⟩,
        handle := some 0,
        body_mode := .BODY_MODE_KINEMATIC }
      ⟨fun _ => some ⟨0, 0, Iso.identity, false, 1, 0, 0, 0⟩, none⟩ 0
      ⟨0, 0, Iso.identity, false, 1, 0, 0, 0⟩ 1 rfl rfl rfl rfl).2 rfl
    exact h
  · have h := (pre_step_kinematic_no_op.1
      { RapierBody.new 42 with
        space := some ⟨fun _ => some ⟨0, 0, Iso.identity, false, 1, 0, 0, 0⟩, none⟩,
        handle := some 0,
        body_mode := .BODY_MODE_KINEMATIC,
        kinematic_isometry := ⟨(1, 0, 0, 0), ⟨5, 0, 0⟩⟩ }
      ⟨fun _ => some ⟨0, 0, Iso.identity, false, 1, 0, 0, 0⟩, none⟩ 0
      ⟨0, 0, Iso.identity, false, 1, 0, 0, 0⟩ 1 rfl rfl rfl rfl).1
    rw [h]
    decide
  · have h := pre_step_kinematic_no_op.2
      { RapierBody.new 43 with body_mode := .BODY_MODE_KINEMATIC }
      ⟨⟨(1, 0, 0, 0), ⟨2, 0, 0⟩⟩, ⟨1, 1, 1⟩⟩ rfl
    exact h

/-- Claim C3: `total_gravity()` computes exactly the spec's four-mode fold
(accumulate on COMBINE, accumulate-and-stop on COMBINE_REPLACE,
overwrite-and-stop on REPLACE, overwrite-and-continue on REPLACE_COMBINE,
nothing on DISABLED, the default area's gravity added iff no stopping
mode was reached, the result scaled by `gravity_scale`); in particular,
with every area in COMBINE mode the total is the sum of all area
contributions plus the default area's, scaled by `gravity_scale`, and a
REPLACE area masks every later area and the default area. -/
theorem total_gravity_fold_spec :
    (∀ b : RapierBody, b.total_gravity' = specTotalGravity b)
    ∧ (∀ b : RapierBody,
        (∀ a ∈ b.areas, a.gravity_mode = .AREA_SPACE_OVERRIDE_COMBINE) →
        b.total_gravity' = b.gravity_scale *
          ((b.areas.map (fun a => a.compute_gravity b.transform'.origin)).sum
            + (match b.defaultArea? with
               | some d => d.compute_gravity b.transform'.origin
               | none => 0)))
    ∧ (∀ (b : RapierBody) (gb : Nat → Option EngineBody) (da da' : Option RapierArea)
        (xs ys ys' : List RapierArea) (a : RapierArea),
        a.gravity_mode = .AREA_SPACE_OVERRIDE_REPLACE →
        RapierBody.total_gravity'
            { b with areas := xs ++ a :: ys, space := some ⟨gb, da⟩ }
          = RapierBody.total_gravity'
            { b with areas := xs ++ a :: ys', space := some ⟨gb, da'⟩ }) := by
  refine ⟨?_, ?_, ?_⟩
  · intro b
    simp only [RapierBody.total_gravity', specTotalGravity, overrideFold_false_spec]
    cases hr : (specOverrideResolve (fun a => a.gravity_mode)
        (fun a => a.compute_gravity b.transform'.origin) b.areas 0).2 <;>
      simp [hr]
  · intro b hall
    simp only [RapierBody.total_gravity']
    rw [overrideFold_all_combine _ _ _ _ hall]
    cases hd : b.defaultArea? <;> simp [hd]
  · intro b gb da da' xs ys ys' a ha
    have hpos : RapierBody.transform'
          { b with areas := xs ++ a :: ys, space := some ⟨gb, da⟩ }
        = RapierBody.transform'
          { b with areas := xs ++ a :: ys', space := some ⟨gb, da'⟩ } := by
      simp [RapierBody.transform']
    simp only [RapierBody.total_gravity', RapierBody.defaultArea?, hpos]
    have hmask := overrideFold_replace_masks (fun x => x.gravity_mode)
      (fun x => x.compute_gravity
        (RapierBody.transform'
          { b with areas := xs ++ a :: ys', space := some ⟨gb, da'⟩ }).origin)
      a ha ys ys' xs (0 : V3) false
    have hstopped := overrideFold_replace_masks (fun x => x.gravity_mode)
      (fun x => x.compute_gravity
        (RapierBody.transform'
          { b with areas := xs ++ a :: ys', space := some ⟨gb, da'⟩ }).origin)
      a ha ys' ys' xs (0 : V3) false
    rw [hmask.1, hstopped.2]
    simp

/-- Witness for the C3 theorem: concrete bodies exercising the
spec-equivalence, the all-COMBINE sum, and the REPLACE masking parts. -/
theorem total_gravity_fold_spec_witness :
    RapierBody.total_gravity' (RapierBody.new 51) = specTotalGravity (RapierBody.new 51)
    ∧ RapierBody.total_gravity'
        { RapierBody.new 52 with
          space := some ⟨fun _ => none,
            some { RapierArea.new 0 with gravity := 1, gravity_vector := ⟨0, 0, 4⟩ }⟩,
          areas := [{ RapierArea.new 1 with
                      gravity_mode := .AREA_SPACE_OVERRIDE_COMBINE,
                      gravity := 2, gravity_vector := ⟨0, 1, 0⟩ },
                    { RapierArea.new 2 with
                      gravity_mode := .AREA_SPACE_OVERRIDE_COMBINE,
                      gravity := 3, gravity_vector := ⟨1, 0, 0⟩ }] } = ⟨3, 2, 4⟩
    ∧ RapierBody.total_gravity'
        { RapierBody.new 53 with
          areas := [] ++ { RapierArea.new 3 with
                            gravity_mode := .AREA_SPACE_OVERRIDE_REPLACE,
                            gravity := 5, gravity_vector := ⟨0, 1, 0⟩ } ::
                    [{ RapierArea.new 4 with
                        gravity_mode := .AREA_SPACE_OVERRIDE_COMBINE,
                        gravity := 7, gravity_vector := ⟨1, 0, 0⟩ }],
          space := some ⟨fun _ => none,
            some { RapierArea.new 0 with gravity := 1, gravity_vector := ⟨0, 0, 4⟩ }⟩ }
      = RapierBody.total_gravity'
        { RapierBody.new 53 with
          areas := [] ++ { RapierArea.new 3 with
                            gravity_mode := .AREA_SPACE_OVERRIDE_REPLACE,
                            gravity := 5, gravity_vector := ⟨0, 1, 0⟩ } :: [],
          space := some ⟨fun _ => none, none⟩ } := by
  refine ⟨total_gravity_fold_spec.1 (RapierBody.new 51), ?_, ?_⟩
  · rw [total_gravity_fold_spec.2.1 _ (by decide)]
    ext <;>
      simp [RapierBody.new, RapierArea.new, RapierArea.default,
        RapierArea.compute_gravity, RapierBody.defaultArea?, RapierBody.transform',
        Transform3D.origin, Transform3D.IDENTITY, Iso.identity]
  · exact total_gravity_fold_spec.2.2 (RapierBody.new 53) (fun _ => none)
      (some { RapierArea.new 0 with gravity := 1, gravity_vector := ⟨0, 0, 4⟩ }) none
      [] [{ RapierArea.new 4 with
            gravity_mode := .AREA_SPACE_OVERRIDE_COMBINE,
            gravity := 7, gravity_vector := ⟨1, 0, 0⟩ }] []
      { RapierArea.new 3 with
        gravity_mode := .AREA_SPACE_OVERRIDE_REPLACE,
        gravity := 5, gravity_vector := ⟨0, 1, 0⟩ } rfl

/-- Claim C4: `total_linear_damp()` and `total_angular_damp()` each equal
the spec's computation — the same four-mode fold as total gravity with
the area's damp value as accumulate-target, the default area's damp added
iff no stopping mode was reached, and then the body's own damp factored
in by the body's damp mode (COMBINE adds it, REPLACE overwrites).  The
source initialises the loop flag to `damp_mode == REPLACE` rather than
false, but that is observationally identical: the flag is overwritten by
the first iteration, and on an empty area list the body-mode REPLACE
overwrite discards the difference. -/
theorem total_damp_fold_spec :
    ∀ b : RapierBody,
      b.total_linear_damp' = specTotalLinearDamp b
      ∧ b.total_angular_damp' = specTotalAngularDamp b := by
  intro b
  constructor
  · rcases hA : b.areas with _ | ⟨a, rest⟩
    · cases hm : b.linear_damp_mode <;>
        simp [RapierBody.total_linear_damp', specTotalLinearDamp, hA, hm,
          overrideFold, specOverrideResolve]
    · have hfold : overrideFold (fun x => x.linear_damp_mode) (fun x => x.linear_damp)
          (a :: rest) 0 (decide (b.linear_damp_mode = .DAMP_MODE_REPLACE))
          = specOverrideResolve (fun x => x.linear_damp_mode) (fun x => x.linear_damp)
            (a :: rest) 0 := by
        rw [overrideFold_cons_flag _ _ a rest 0 _ false, overrideFold_false_spec]
      simp only [RapierBody.total_linear_damp', specTotalLinearDamp, hA, hfold]
      cases hr : (specOverrideResolve (fun x => x.linear_damp_mode)
          (fun x => x.linear_damp) (a :: rest) 0).2 <;> simp [hr]
  · rcases hA : b.areas with _ | ⟨a, rest⟩
    · cases hm : b.angular_damp_mode <;>
        simp [RapierBody.total_angular_damp', specTotalAngularDamp, hA, hm,
          overrideFold, specOverrideResolve]
    · have hfold : overrideFold (fun x => x.angular_damp_mode) (fun x => x.angular_damp)
          (a :: rest) 0 (decide (b.angular_damp_mode = .DAMP_MODE_REPLACE))
          = specOverrideResolve (fun x => x.angular_damp_mode) (fun x => x.angular_damp)
            (a :: rest) 0 := by
        rw [overrideFold_cons_flag _ _ a rest 0 _ false, overrideFold_false_spec]
      simp only [RapierBody.total_angular_damp', specTotalAngularDamp, hA, hfold]
      cases hr : (specOverrideResolve (fun x => x.angular_damp_mode)
          (fun x => x.angular_damp) (a :: rest) 0).2 <;> simp [hr]

/-- Claim C10: a freshly constructed area carries all three override modes
DISABLED, and inserting such an area anywhere into a body's
overlapping-area list leaves `total_gravity()`, `total_linear_damp()` and
`total_angular_damp()` unchanged — a fresh area is an identity element of
the reconciliation fold. -/
theorem fresh_area_fold_identity :
    (∀ r : Nat,
      (RapierArea.new r).gravity_mode = .AREA_SPACE_OVERRIDE_DISABLED
      ∧ (RapierArea.new r).linear_damp_mode = .AREA_SPACE_OVERRIDE_DISABLED
      ∧ (RapierArea.new r).angular_damp_mode = .AREA_SPACE_OVERRIDE_DISABLED)
    ∧ (∀ (b : RapierBody) (r : Nat) (xs ys : List RapierArea),
      RapierBody.total_gravity' { b with areas := xs ++ RapierArea.new r :: ys }
        = RapierBody.total_gravity' { b with areas := xs ++ ys }
      ∧ RapierBody.total_linear_damp' { b with areas := xs ++ RapierArea.new r :: ys }
        = RapierBody.total_linear_damp' { b with areas := xs ++ ys }
      ∧ RapierBody.total_angular_damp' { b with areas := xs ++ RapierArea.new r :: ys }
        = RapierBody.total_angular_damp' { b with areas := xs ++ ys }) := by
  constructor
  · intro r
    exact ⟨rfl, rfl, rfl⟩
  · intro b r xs ys
    refine ⟨?_, ?_, ?_⟩
    · simp only [RapierBody.total_gravity']
      rw [overrideFold_insert_disabled _ _ (RapierArea.new r) rfl ys xs 0 false
        (Or.inr rfl)]
      rfl
    · by_cases hxy : xs ++ ys = []
      · obtain ⟨hx, hy⟩ := List.append_eq_nil.mp hxy
        subst hx
        subst hy
        cases hm : b.linear_damp_mode <;>
          simp [RapierBody.total_linear_damp', hm, overrideFold,
            RapierArea.new, RapierArea.default, RapierBody.defaultArea?]
      · simp only [RapierBody.total_linear_damp']
        rw [overrideFold_insert_disabled _ _ (RapierArea.new r) rfl ys xs 0 _
          (Or.inl hxy)]
        rfl
    · by_cases hxy : xs ++ ys = []
      · obtain ⟨hx, hy⟩ := List.append_eq_nil.mp hxy
        subst hx
        subst hy
        cases hm : b.angular_damp_mode <;>
          simp [RapierBody.total_angular_damp', hm, overrideFold,
            RapierArea.new, RapierArea.default, RapierBody.defaultArea?]
      · simp only [RapierBody.total_angular_damp']
        rw [overrideFold_insert_disabled _ _ (RapierArea.new r) rfl ys xs 0 _
          (Or.inl hxy)]
        rfl
